import Mathlib

/-!
Verification of the configuration subsystem of the commander-js demo CLI
(`src/commands/config.ts`).

The TypeScript source is shallowly embedded:

* configuration values (`string | boolean | number` as they occur in this
  subsystem) become the inductive `JValue`; the extra constructor `vNan`
  models the JavaScript `NaN` produced by a failed `parseInt`;
* a configuration object becomes an association list `Config`
  (JavaScript objects are ordered key/value maps; property assignment
  updates in place or appends, and spread `{...a, ...b}` lets `b` win);
* the JavaScript numeric-string functions `Number` (via its `isNaN` test),
  `parseFloat` (via its `isNaN` test) and `parseInt` used by
  `validateConfigValue` are embedded as executable functions on strings;
* each command action becomes a pure function from its inputs and the
  persisted file state (`Option Config`, `none` = missing/unparseable file)
  to a result record recording the reported error, the config written by
  `saveConfig` (if any) and the process exit status.  `config.ts` never
  calls `process.exit` nor sets `process.exitCode`, so every action
  terminates with the default status 0; terminal styling (chalk, ora,
  boxen, emoji) is dropped from the messages.
* `JSON.stringify`/`JSON.parse` of a configuration object are modelled as
  the identity on `Config` (JSON round-trips these flat documents
  losslessly), so `export` produces the document it serializes and
  `import` consumes a parsed candidate document.
-/

/-! ## JavaScript numeric-string semantics -/

/-- Decimal digit test. -/
def isDigit (c : Char) : Bool := '0' ≤ c && c ≤ '9'

/-- Hexadecimal digit test. -/
def isHexDigit (c : Char) : Bool :=
  isDigit c || ('a' ≤ c && c ≤ 'f') || ('A' ≤ c && c ≤ 'F')

/-- Octal digit test. -/
def isOctDigit (c : Char) : Bool := '0' ≤ c && c ≤ '7'

/-- Binary digit test. -/
def isBinDigit (c : Char) : Bool := c == '0' || c == '1'

/-- JavaScript whitespace (as trimmed by `Number` and skipped by
`parseInt` / `parseFloat`): space, tab, line feed, carriage return,
vertical tab, form feed, no-break space, BOM. -/
def isJsWhitespace (c : Char) : Bool :=
  c == ' ' || c == '\t' || c == '\n' || c == '\r' ||
  c == Char.ofNat 11 || c == Char.ofNat 12 ||
  c == Char.ofNat 0xA0 || c == Char.ofNat 0xFEFF

/-- Longest digit span of a character list. -/
def takeDigits (cs : List Char) : List Char × List Char := cs.span isDigit

/-- Matches an optional exponent part `([eE][+-]?Digits)?` that must consume
the whole remaining input. -/
def matchExpOpt (cs : List Char) : Bool :=
  match cs with
  | [] => true
  | c :: rest =>
    (c == 'e' || c == 'E') &&
      (let rest2 := match rest with
        | '+' :: r => r
        | '-' :: r => r
        | _ => rest
      let p := takeDigits rest2
      (!p.1.isEmpty) && p.2.isEmpty)

/-- Full-match recognizer for an unsigned decimal literal
`Digits [. Digits] Exp? | . Digits Exp?` as accepted by `Number`. -/
def decimalLiteral (cs : List Char) : Bool :=
  match cs with
  | '.' :: rest =>
    let p := takeDigits rest
    (!p.1.isEmpty) && matchExpOpt p.2
  | _ =>
    let p := takeDigits cs
    if p.1.isEmpty then false
    else match p.2 with
      | '.' :: rest2 => matchExpOpt (takeDigits rest2).2
      | r => matchExpOpt r

/-- Unsigned decimal literal or the literal `Infinity`. -/
def decimalOrInfinity (cs : List Char) : Bool :=
  cs == "Infinity".toList || decimalLiteral cs

/-- Full-match recognizer for ECMAScript `StrNumericLiteral` (the grammar
`Number` accepts on a trimmed, non-empty string): an optionally signed
decimal literal or `Infinity`, or an unsigned `0x`/`0o`/`0b` literal. -/
def strNumericLiteral (cs : List Char) : Bool :=
  match cs with
  | '+' :: rest => decimalOrInfinity rest
  | '-' :: rest => decimalOrInfinity rest
  | '0' :: 'x' :: rest => (!rest.isEmpty) && rest.all isHexDigit
  | '0' :: 'X' :: rest => (!rest.isEmpty) && rest.all isHexDigit
  | '0' :: 'o' :: rest => (!rest.isEmpty) && rest.all isOctDigit
  | '0' :: 'O' :: rest => (!rest.isEmpty) && rest.all isOctDigit
  | '0' :: 'b' :: rest => (!rest.isEmpty) && rest.all isBinDigit
  | '0' :: 'B' :: rest => (!rest.isEmpty) && rest.all isBinDigit
  | _ => decimalOrInfinity cs

/-- Trim JavaScript whitespace from both ends. -/
def jsTrim (cs : List Char) : List Char :=
  ((cs.dropWhile isJsWhitespace).reverse.dropWhile isJsWhitespace).reverse

/-- Embeds the JavaScript test `isNaN(Number(s))`: `Number` trims the
string, maps the empty remainder to `0` (not NaN), and is NaN exactly when
the remainder is not a numeric literal. -/
def jsNumberIsNaN (s : String) : Bool :=
  let cs := jsTrim s.toList
  if cs.isEmpty then false else !strNumericLiteral cs

/-- Embeds the JavaScript test `isNaN(parseFloat(s))`: `parseFloat` skips
leading whitespace and an optional sign and is NaN exactly when the rest
does not start with a digit, a dot followed by a digit, or `Infinity`. -/
def jsParseFloatIsNaN (s : String) : Bool :=
  let cs := s.toList.dropWhile isJsWhitespace
  let cs2 := match cs with
    | '+' :: r => r
    | '-' :: r => r
    | _ => cs
  let startsFloat : Bool :=
    (match cs2 with
      | c :: _ => isDigit c
      | [] => false) ||
    (match cs2 with
      | '.' :: c :: _ => isDigit c
      | _ => false) ||
    "Infinity".toList.isPrefixOf cs2
  !startsFloat

/-- Value of a digit list in base 10. -/
def digitsToNat (ds : List Char) : Nat :=
  ds.foldl (fun n c => n * 10 + (c.toNat - 48)) 0

/-- Value of a single hexadecimal digit. -/
def hexDigitVal (c : Char) : Nat :=
  if isDigit c then c.toNat - 48
  else if 'a' ≤ c && c ≤ 'f' then c.toNat - 87
  else c.toNat - 55

/-- Value of a hex digit list in base 16. -/
def hexDigitsToNat (ds : List Char) : Nat :=
  ds.foldl (fun n c => n * 16 + hexDigitVal c) 0

/-- Embeds JavaScript `parseInt(s)` (radix argument omitted, hence 10, or
16 after a `0x`/`0X` prefix): skip whitespace, read an optional sign, take
the longest run of digits; `none` models NaN (no digits). -/
def jsParseInt (s : String) : Option Int :=
  let cs := s.toList.dropWhile isJsWhitespace
  let sign : Int := match cs with | '-' :: _ => -1 | _ => 1
  let cs2 := match cs with
    | '+' :: r => r
    | '-' :: r => r
    | _ => cs
  match cs2 with
  | '0' :: 'x' :: r =>
    let ds := (r.span isHexDigit).1
    if ds.isEmpty then none else some (sign * (hexDigitsToNat ds : Int))
  | '0' :: 'X' :: r =>
    let ds := (r.span isHexDigit).1
    if ds.isEmpty then none else some (sign * (hexDigitsToNat ds : Int))
  | _ =>
    let ds := (takeDigits cs2).1
    if ds.isEmpty then none else some (sign * (digitsToNat ds : Int))

/-! ## Configuration values and documents -/

/-- Values occurring in this subsystem: strings, booleans, integral
numbers, and the JavaScript `NaN` a failed `parseInt` can produce. -/
inductive JValue where
  | vStr : String → JValue
  | vBool : Bool → JValue
  | vInt : Int → JValue
  | vNan : JValue
deriving DecidableEq, Repr

open JValue

/-- A configuration object: an ordered association list of properties,
as a JavaScript object is. -/
abbrev Config := List (String × JValue)

/-- Property lookup (`obj[k]`); `none` when the key is absent. -/
def jget (c : Config) (k : String) : Option JValue :=
  match c with
  | [] => none
  | kv :: rest => if kv.1 = k then some kv.2 else jget rest k

/-- Property assignment (`obj[k] = v`): updates the first occurrence in
place, or appends a new property. -/
def jinsert (c : Config) (k : String) (v : JValue) : Config :=
  match c with
  | [] => [(k, v)]
  | kv :: rest => if kv.1 = k then (k, v) :: rest else kv :: jinsert rest k v

/-- Object spread `{...a, ...b}`: properties of `b` assigned over `a` in
order, so `b` wins on common keys. -/
def jmerge (a b : Config) : Config :=
  b.foldl (fun acc kv => jinsert acc kv.1 kv.2) a

/-- The JavaScript `in` test (`k in obj`). -/
def keyOccurs (c : Config) (k : String) : Bool :=
  c.any (fun kv => kv.1 = k)

/-- Left-biased choice on optional values, used to state lookups in merged
objects. -/
def oor (x y : Option JValue) : Option JValue :=
  match x with
  | some v => some v
  | none => y

/-- The `DEFAULT_CONFIG` object of `config.ts`. -/
def DEFAULT_CONFIG : Config :=
  [("theme", vStr "default"),
   ("colorOutput", vBool true),
   ("dateFormat", vStr "locale"),
   ("defaultPriority", vStr "medium"),
   ("autoSave", vBool true),
   ("maxItems", vInt 100),
   ("apiUrl", vStr "https://api.example.com"),
   ("timeout", vInt 5000),
   ("language", vStr "en"),
   ("debug", vBool false)]

/-- The schema keys, in declaration order. -/
def schemaKeys : List String := DEFAULT_CONFIG.map Prod.fst

/-- Embeds `loadConfig`: on a successful read and parse the stored object
is spread over the defaults (`{...DEFAULT_CONFIG, ...config}`); any read
or parse failure (`none`) yields the defaults. -/
def loadConfig (stored : Option Config) : Config :=
  match stored with
  | some c => jmerge DEFAULT_CONFIG c
  | none => DEFAULT_CONFIG

/-! ## Validation (`validateConfigValue`) -/

/-- The per-key `validators` table of `validateConfigValue`; `none` for an
unknown key.  `includes` on a string array is `false` on non-string
values, `typeof val === 'boolean'` tests the `vBool` constructor, and
`Number.isInteger` holds only for the `vInt` constructor (it is `false`
on strings, booleans and `NaN`). -/
def validators (key : String) : Option (JValue → Bool) :=
  if key = "theme" then
    some (fun v => match v with
      | vStr s => ["default", "dark", "light", "rainbow"].contains s
      | _ => false)
  else if key = "colorOutput" then
    some (fun v => match v with | vBool _ => true | _ => false)
  else if key = "dateFormat" then
    some (fun v => match v with
      | vStr s => ["locale", "iso", "us", "eu"].contains s
      | _ => false)
  else if key = "defaultPriority" then
    some (fun v => match v with
      | vStr s => ["low", "medium", "high", "urgent"].contains s
      | _ => false)
  else if key = "autoSave" then
    some (fun v => match v with | vBool _ => true | _ => false)
  else if key = "maxItems" then
    some (fun v => match v with
      | vInt n => decide (0 < n ∧ n ≤ 1000)
      | _ => false)
  else if key = "apiUrl" then
    some (fun v => match v with
      | vStr s => decide (0 < s.length)
      | _ => false)
  else if key = "timeout" then
    some (fun v => match v with | vInt n => decide (0 < n) | _ => false)
  else if key = "language" then
    some (fun v => match v with
      | vStr s => ["en", "es", "fr", "de", "it"].contains s
      | _ => false)
  else if key = "debug" then
    some (fun v => match v with | vBool _ => true | _ => false)
  else none

/-- Whether `v` satisfies the validator of `key` (false for unknown keys). -/
def validatorHolds (key : String) (v : JValue) : Bool :=
  match validators key with
  | some f => f v
  | none => false

/-- The `suggestions` table of `validateConfigValue`, with its
`'Invalid value'` fallback. -/
def suggestions (key : String) : String :=
  if key = "theme" then "Must be one of: default, dark, light, rainbow"
  else if key = "colorOutput" then "Must be true or false"
  else if key = "dateFormat" then "Must be one of: locale, iso, us, eu"
  else if key = "defaultPriority" then "Must be one of: low, medium, high, urgent"
  else if key = "autoSave" then "Must be true or false"
  else if key = "maxItems" then "Must be a number between 1 and 1000"
  else if key = "apiUrl" then "Must be a valid URL string"
  else if key = "timeout" then "Must be a positive number"
  else if key = "language" then "Must be one of: en, es, fr, de, it"
  else if key = "debug" then "Must be true or false"
  else "Invalid value"

/-- The string-to-value conversion step of `validateConfigValue`
(lines 60–65): `'true'`/`'false'` become booleans, and a string passing
both `!isNaN(Number(value))` and `!isNaN(parseFloat(value))` becomes
`parseInt(value)`; other values are unchanged. -/
def coerce (value : JValue) : JValue :=
  match value with
  | vStr s =>
    if s = "true" then vBool true
    else if s = "false" then vBool false
    else if !jsNumberIsNaN s && !jsParseFloatIsNaN s then
      match jsParseInt s with
      | some n => vInt n
      | none => vNan
    else vStr s
  | v => v

/-- Result of `validateConfigValue`: `{valid: true, value}` or
`{valid: false, message}`. -/
inductive ValidationResult where
  | ok : JValue → ValidationResult
  | err : String → ValidationResult
deriving DecidableEq, Repr

/-- Embeds `validateConfigValue(key, value)`. -/
def validateConfigValue (key : String) (value : JValue) : ValidationResult :=
  match validators key with
  | none => .err ("Unknown configuration key: " ++ key)
  | some f =>
    let convertedValue := coerce value
    if f convertedValue then .ok convertedValue else .err (suggestions key)

example : validateConfigValue "theme" (vStr "dark") = .ok (vStr "dark") := by decide
example : validateConfigValue "theme" (vStr "neon") =
    .err "Must be one of: default, dark, light, rainbow" := by decide
example : validateConfigValue "maxItems" (vStr "150") = .ok (vInt 150) := by decide
example : validateConfigValue "maxItems" (vStr "99.9") = .ok (vInt 99) := by decide
example : validateConfigValue "maxItems" (vStr "") =
    .err "Must be a number between 1 and 1000" := by decide
example : validateConfigValue "maxItems" (vStr " ") =
    .err "Must be a number between 1 and 1000" := by decide
example : validateConfigValue "colorOutput" (vStr "false") = .ok (vBool false) := by decide
example : validateConfigValue "apiUrl" (vStr "true") = .err "Must be a valid URL string" := by
  decide
example : validateConfigValue "foo" (vStr "x") =
    .err "Unknown configuration key: foo" := by decide

/-! ## Command actions

Each `config` subcommand action becomes a pure function of its inputs and
the persisted file state.  `errorMsg` is the message printed with
`console.error` on an error path (`none` when none is printed), `saved` is
the object passed to `saveConfig` (`none` when nothing is written) and
`exitCode` is the process exit status.  `config.ts` never calls
`process.exit` nor assigns `process.exitCode`, so every path terminates
with the default status 0. -/

/-- Outcome of one command invocation. -/
structure CmdResult where
  errorMsg : Option String
  saved : Option Config
  exitCode : Nat
deriving DecidableEq, Repr

/-- The persisted file state after an action: the written object if the
action saved one, otherwise the previous state. -/
def storedAfter (stored : Option Config) (saved : Option Config) : Option Config :=
  match saved with
  | some c => some c
  | none => stored

/-- Embeds the `config set <key> <value>` action (lines 197–233): load,
validate unless `--force`, reject invalid values without saving, otherwise
assign (the coerced value, or the raw string under `--force`) and save. -/
def setAction (key value : String) (force : Bool) (stored : Option Config) : CmdResult :=
  let config := loadConfig stored
  if force = false then
    match validateConfigValue key (vStr value) with
    | .err m => { errorMsg := some m, saved := none, exitCode := 0 }
    | .ok v => { errorMsg := none, saved := some (jinsert config key v), exitCode := 0 }
  else
    { errorMsg := none, saved := some (jinsert config key (vStr value)), exitCode := 0 }

/-- Embeds the specific-key branch of the `config get [key]` action
(lines 162–185): a key absent from the loaded object is reported as not
found; nothing is ever saved. -/
def getAction (key : String) (stored : Option Config) : CmdResult :=
  let config := loadConfig stored
  if keyOccurs config key then
    { errorMsg := none, saved := none, exitCode := 0 }
  else
    { errorMsg := some ("Configuration key \"" ++ key ++ "\" not found!"),
      saved := none, exitCode := 0 }

/-- Embeds the specific-key branch of the `config reset --key <key>`
action (lines 303–341): a key not in `DEFAULT_CONFIG` is rejected;
otherwise, after the confirmation gate (unless `--force`), the key is set
back to its default and the object saved. -/
def resetKeyAction (key : String) (force confirmed : Bool) (stored : Option Config) :
    CmdResult :=
  let config := loadConfig stored
  if keyOccurs DEFAULT_CONFIG key = false then
    { errorMsg := some ("Unknown configuration key: " ++ key), saved := none, exitCode := 0 }
  else if force = false ∧ confirmed = false then
    { errorMsg := none, saved := none, exitCode := 0 }
  else
    match jget DEFAULT_CONFIG key with
    | some d => { errorMsg := none, saved := some (jinsert config key d), exitCode := 0 }
    | none => { errorMsg := none, saved := none, exitCode := 0 }

/-- Embeds the `config export` action (lines 372–399): the loaded object
is serialized in full (`JSON.stringify(config)`); serialization is
modelled as the identity, so the action yields the exported document. -/
def exportAction (stored : Option Config) : Config :=
  loadConfig stored

/-- The key set of an export, as displayed by `Keys Exported`. -/
def exportedKeys (stored : Option Config) : List String :=
  (exportAction stored).map Prod.fst

/-- One step of the error collection of the `config import` action: an
invalid entry appends `` key ++ ": " ++ message `` to the error list. -/
def importErrStep (errs : List String) (kv : String × JValue) : List String :=
  match validateConfigValue kv.1 kv.2 with
  | .ok _ => errs
  | .err m => errs ++ [kv.1 ++ ": " ++ m]

/-- The validation-error list the `config import` action collects over
every entry of the parsed candidate object (lines 427–433). -/
def importValidationErrors (importConfig : Config) : List String :=
  importConfig.foldl importErrStep []

/-- Outcome of the `config import` action. -/
structure ImportResult where
  validationErrors : List String
  saved : Option Config
  exitCode : Nat
deriving DecidableEq, Repr

/-- Embeds the `config import <filename>` action (lines 407–485): collect
all validation errors; abort without saving when errors exist and
`--force` is absent; otherwise build the final object (`--merge` spreads
the candidate over the current config, plain import takes the candidate
alone), pass the confirmation gate (unless `--force`), and save. -/
def importAction (importConfig : Config) (merge force confirmed : Bool)
    (stored : Option Config) : ImportResult :=
  let validationErrors := importValidationErrors importConfig
  if validationErrors.isEmpty = false ∧ force = false then
    { validationErrors := validationErrors, saved := none, exitCode := 0 }
  else
    let finalConfig :=
      if merge then jmerge (loadConfig stored) importConfig else importConfig
    if force = false ∧ confirmed = false then
      { validationErrors := validationErrors, saved := none, exitCode := 0 }
    else
      { validationErrors := validationErrors, saved := some finalConfig, exitCode := 0 }

/-! ## Documents

The spec's notion of a valid, fully populated configuration document. -/

/-- A valid configuration document: no duplicate properties, every schema
key present, and every entry a schema key whose value satisfies that
key's validator. -/
def isValidDoc (D : Config) : Prop :=
  (D.map Prod.fst).Nodup ∧
  (∀ k ∈ schemaKeys, (jget D k).isSome = true) ∧
  (∀ kv ∈ D, kv.1 ∈ schemaKeys ∧ validatorHolds kv.1 kv.2 = true)

instance (D : Config) : Decidable (isValidDoc D) := by
  unfold isValidDoc
  infer_instance

/-- A document none of whose values is changed by the conversion step of
`validateConfigValue`. -/
def coercionFree (D : Config) : Prop :=
  ∀ kv ∈ D, coerce kv.2 = kv.2

instance (D : Config) : Decidable (coercionFree D) := by
  unfold coercionFree
  infer_instance


/-! ## Lemmas about object lookup, assignment and spread -/

theorem jget_jinsert (c : Config) (k k2 : String) (v : JValue) :
    jget (jinsert c k v) k2 = if k = k2 then some v else jget c k2 := by
  induction c with
  | nil =>
    by_cases h : k = k2 <;> simp [jinsert, jget, h]
  | cons kv rest ih =>
    obtain ⟨k1, v1⟩ := kv
    by_cases h1 : k1 = k
    · subst h1
      by_cases h2 : k1 = k2 <;> simp [jinsert, jget, h2]
    · by_cases h2 : k1 = k2
      · have hk : k ≠ k2 := fun hh => h1 (h2.trans hh.symm)
        subst h2
        simp [jinsert, jget, h1, hk]
      · simp [jinsert, jget, h1, h2, ih]

theorem jget_none_of_not_mem_keys (c : Config) (k : String)
    (h : k ∉ c.map Prod.fst) : jget c k = none := by
  induction c with
  | nil => rfl
  | cons kv rest ih =>
    simp only [List.map_cons, List.mem_cons, not_or] at h
    have h1 : kv.1 ≠ k := fun hh => h.1 hh.symm
    simp [jget, h1, ih h.2]

theorem jget_isSome_of_mem_keys (c : Config) (k : String)
    (h : k ∈ c.map Prod.fst) : (jget c k).isSome = true := by
  induction c with
  | nil => simp at h
  | cons kv rest ih =>
    by_cases h1 : kv.1 = k
    · simp [jget, h1]
    · simp only [List.map_cons, List.mem_cons] at h
      rcases h with h | h
      · exact absurd h.symm h1
      · simp [jget, h1, ih h]

theorem mem_of_jget_eq_some (c : Config) (k : String) (v : JValue)
    (h : jget c k = some v) : (k, v) ∈ c := by
  induction c with
  | nil => simp [jget] at h
  | cons kv rest ih =>
    by_cases h1 : kv.1 = k
    · simp only [jget, h1, if_pos] at h
      have : kv = (k, v) := by
        cases kv
        simp_all
      simp [this]
    · simp only [jget, h1, if_neg, ite_false] at h
      exact List.mem_cons_of_mem _ (ih h)

theorem jget_isSome_jinsert (c : Config) (k k1 : String) (v : JValue)
    (h : (jget c k).isSome = true) : (jget (jinsert c k1 v) k).isSome = true := by
  rw [jget_jinsert]
  by_cases h1 : k1 = k <;> simp [h1, h]

theorem jget_isSome_jmerge (a b : Config) (k : String)
    (h : (jget a k).isSome = true) : (jget (jmerge a b) k).isSome = true := by
  simp only [jmerge]
  induction b generalizing a with
  | nil => exact h
  | cons kv rest ih =>
    simp only [List.foldl_cons]
    exact ih _ (jget_isSome_jinsert _ _ _ _ h)

theorem keys_jinsert (c : Config) (k : String) (v : JValue) :
    (jinsert c k v).map Prod.fst =
      if k ∈ c.map Prod.fst then c.map Prod.fst else c.map Prod.fst ++ [k] := by
  induction c with
  | nil => simp [jinsert]
  | cons kv rest ih =>
    by_cases h1 : kv.1 = k
    · simp [jinsert, h1]
    · have h1s : k ≠ kv.1 := fun hh => h1 hh.symm
      by_cases h2 : k ∈ rest.map Prod.fst <;>
        simp [jinsert, h1, h1s, h2, ih]

theorem nodup_keys_jinsert (c : Config) (k : String) (v : JValue)
    (h : (c.map Prod.fst).Nodup) : ((jinsert c k v).map Prod.fst).Nodup := by
  rw [keys_jinsert]
  by_cases h1 : k ∈ c.map Prod.fst <;> simp [h1, h, List.nodup_append]

theorem nodup_keys_jmerge (a b : Config) (h : (a.map Prod.fst).Nodup) :
    ((jmerge a b).map Prod.fst).Nodup := by
  simp only [jmerge]
  induction b generalizing a with
  | nil => exact h
  | cons kv rest ih =>
    simp only [List.foldl_cons]
    exact ih _ (nodup_keys_jinsert _ _ _ h)

theorem jget_jmerge (a b : Config) (k : String) (hb : (b.map Prod.fst).Nodup) :
    jget (jmerge a b) k = oor (jget b k) (jget a k) := by
  simp only [jmerge]
  induction b generalizing a with
  | nil => simp [jget, oor]
  | cons kv rest ih =>
    simp only [List.foldl_cons]
    rw [List.map_cons] at hb
    have hbc := List.nodup_cons.mp hb
    rw [ih _ hbc.2]
    by_cases h1 : kv.1 = k
    · have hnone : jget rest k = none :=
        jget_none_of_not_mem_keys _ _ (h1 ▸ hbc.1)
      simp [jget, h1, hnone, oor, jget_jinsert]
    · have h1s : k ≠ kv.1 := fun hh => h1 hh.symm
      simp [jget, h1, oor, jget_jinsert, h1s]

/-! ## Lemmas about the import error collection and loading -/

theorem foldl_importErrStep_append (L : Config) (acc : List String) :
    L.foldl importErrStep acc = acc ++ L.foldl importErrStep [] := by
  induction L generalizing acc with
  | nil => simp
  | cons kv rest ih =>
    simp only [List.foldl_cons]
    rw [ih (importErrStep acc kv), ih (importErrStep [] kv)]
    cases hv : validateConfigValue kv.1 kv.2 <;> simp [importErrStep, hv]

theorem importValidationErrors_eq_nil (L : Config)
    (h : ∀ kv ∈ L, ∃ v, validateConfigValue kv.1 kv.2 = .ok v) :
    importValidationErrors L = [] := by
  induction L with
  | nil => rfl
  | cons kv rest ih =>
    obtain ⟨v, hv⟩ := h kv (List.mem_cons_self _ _)
    have hstep : importErrStep [] kv = [] := by simp [importErrStep, hv]
    simp only [importValidationErrors, List.foldl_cons, hstep]
    simp only [importValidationErrors] at ih
    exact ih (fun kv2 hm => h kv2 (List.mem_cons_of_mem _ hm))

theorem mem_importValidationErrors (L : Config) (kv : String × JValue) (m : String)
    (hmem : kv ∈ L) (hv : validateConfigValue kv.1 kv.2 = .err m) :
    (kv.1 ++ ": " ++ m) ∈ importValidationErrors L := by
  induction L with
  | nil => simp at hmem
  | cons kv2 rest ih =>
    simp only [importValidationErrors, List.foldl_cons]
    rw [foldl_importErrStep_append]
    rcases List.mem_cons.mp hmem with h | h
    · subst h
      simp [importErrStep, hv]
    · simp only [importValidationErrors] at ih
      exact List.mem_append_right _ (ih h)

theorem nodup_keys_default : (DEFAULT_CONFIG.map Prod.fst).Nodup := by decide

theorem nodup_keys_loadConfig (stored : Option Config) :
    ((loadConfig stored).map Prod.fst).Nodup := by
  cases stored with
  | none => exact nodup_keys_default
  | some s => exact nodup_keys_jmerge _ _ nodup_keys_default

theorem jget_loadConfig_isSome (stored : Option Config) (k : String)
    (h : k ∈ schemaKeys) : (jget (loadConfig stored) k).isSome = true := by
  have hd : (jget DEFAULT_CONFIG k).isSome = true :=
    jget_isSome_of_mem_keys _ _ (by simpa [schemaKeys] using h)
  cases stored with
  | none => exact hd
  | some s => exact jget_isSome_jmerge _ _ _ hd

theorem jget_default_none_of_loadConfig_none (stored : Option Config) (k : String)
    (h : jget (loadConfig stored) k = none) : jget DEFAULT_CONFIG k = none := by
  cases hd : jget DEFAULT_CONFIG k with
  | none => rfl
  | some d =>
    have hk : k ∈ schemaKeys := by
      simpa [schemaKeys] using List.mem_map_of_mem Prod.fst (mem_of_jget_eq_some _ _ _ hd)
    have hs := jget_loadConfig_isSome stored k hk
    rw [h] at hs
    simp at hs

theorem mem_jinsert (c : Config) (k : String) (v : JValue) (kv : String × JValue)
    (h : kv ∈ jinsert c k v) : kv ∈ c ∨ kv = (k, v) := by
  induction c with
  | nil => simp [jinsert] at h; simp [h]
  | cons kv2 rest ih =>
    by_cases h1 : kv2.1 = k
    · simp only [jinsert, h1, if_pos] at h
      rcases List.mem_cons.mp h with h | h
      · exact Or.inr h
      · exact Or.inl (List.mem_cons_of_mem _ h)
    · simp only [jinsert, h1, ite_false] at h
      rcases List.mem_cons.mp h with h | h
      · exact Or.inl (h ▸ List.mem_cons_self _ _)
      · rcases ih h with h | h
        · exact Or.inl (List.mem_cons_of_mem _ h)
        · exact Or.inr h

theorem mem_jmerge (a b : Config) (kv : String × JValue)
    (h : kv ∈ jmerge a b) : kv ∈ a ∨ kv ∈ b := by
  simp only [jmerge] at h
  induction b generalizing a with
  | nil => exact Or.inl h
  | cons kv2 rest ih =>
    simp only [List.foldl_cons] at h
    rcases ih _ h with h | h
    · rcases mem_jinsert _ _ _ _ h with h | h
      · exact Or.inl h
      · exact Or.inr (h ▸ List.mem_cons_self _ _)
    · exact Or.inr (List.mem_cons_of_mem _ h)

theorem validate_ok_of_holds (k : String) (v : JValue)
    (hh : validatorHolds k v = true) (hc : coerce v = v) :
    validateConfigValue k v = .ok v := by
  unfold validatorHolds at hh
  unfold validateConfigValue
  cases hv : validators k with
  | none => rw [hv] at hh; simp at hh
  | some f =>
    rw [hv] at hh
    simp at hh
    simp [hh, hc]

theorem default_entries_validate :
    ∀ kv ∈ DEFAULT_CONFIG, validateConfigValue kv.1 kv.2 = .ok kv.2 := by decide

/-! ## Claim theorems -/

/-- C5: for every stored document containing only a subset of the schema
keys, loading yields a document in which every schema key has a value and
every stored key retains its stored value; and on any read or parse
failure (missing file, malformed content) `loadConfig` returns the full
default document rather than failing. -/
theorem C5_load_defaulting (S : Config)
    (hS : (S.map Prod.fst).Nodup)
    (_hsub : ∀ kv ∈ S, kv.1 ∈ schemaKeys) :
    (∀ k ∈ schemaKeys, (jget (loadConfig (some S)) k).isSome = true) ∧
    (∀ k v, jget S k = some v → jget (loadConfig (some S)) k = some v) ∧
    loadConfig none = DEFAULT_CONFIG := by
  refine ⟨?_, ?_, rfl⟩
  · intro k hk
    exact jget_loadConfig_isSome (some S) k hk
  · intro k v hv
    show jget (jmerge DEFAULT_CONFIG S) k = some v
    rw [jget_jmerge _ _ _ hS, hv]
    rfl

/-- Witness for C5 at the stored document `{theme: "dark"}`. -/
theorem C5_load_defaulting_witness :
    (∀ k ∈ schemaKeys,
      (jget (loadConfig (some [("theme", vStr "dark")])) k).isSome = true) ∧
    (∀ k v, jget [("theme", vStr "dark")] k = some v →
      jget (loadConfig (some [("theme", vStr "dark")])) k = some v) ∧
    loadConfig none = DEFAULT_CONFIG :=
  C5_load_defaulting [("theme", vStr "dark")] (by decide) (by decide)

/-- C2: whenever an import persists a final object, the resulting
document (the persisted object as any later load sees it) maps every key
to the candidate's value when the candidate has it, and otherwise to the
current document's value in merge mode, respectively the schema default
in replace mode. -/
theorem C2_import_merge_replace (M : Config) (hM : (M.map Prod.fst).Nodup)
    (merge force confirmed : Bool) (stored : Option Config) (c : Config)
    (hsaved : (importAction M merge force confirmed stored).saved = some c) :
    ∀ k, jget (loadConfig (some c)) k =
      if merge = true then oor (jget M k) (jget (loadConfig stored) k)
      else oor (jget M k) (jget DEFAULT_CONFIG k) := by
  have hc : c = if merge = true then jmerge (loadConfig stored) M else M := by
    simp only [importAction] at hsaved
    split_ifs at hsaved with h1 h2 h3 <;> simp_all
  intro k
  cases hmg : merge with
  | false =>
    subst hc
    simp only [hmg, if_false]
    show jget (jmerge DEFAULT_CONFIG M) k = oor (jget M k) (jget DEFAULT_CONFIG k)
    exact jget_jmerge _ _ _ hM
  | true =>
    subst hc
    simp only [hmg, if_true]
    show jget (jmerge DEFAULT_CONFIG (jmerge (loadConfig stored) M)) k =
      oor (jget M k) (jget (loadConfig stored) k)
    rw [jget_jmerge _ _ _ (nodup_keys_jmerge _ M (nodup_keys_loadConfig stored))]
    rw [jget_jmerge _ _ _ hM]
    cases hm : jget M k with
    | some v => simp [oor]
    | none =>
      cases hcur : jget (loadConfig stored) k with
      | some v => simp [oor]
      | none =>
        simp [oor, jget_default_none_of_loadConfig_none stored k hcur]

/-- Witness for C2: replace-importing `{theme: "dark"}` under `--force`
over an empty store; the resulting document resolves `theme` to the
imported value and `maxItems` to its schema default. -/
theorem C2_import_merge_replace_witness :
    (jget (loadConfig (some [("theme", vStr "dark")])) "theme" =
      if false = true then
        oor (jget [("theme", vStr "dark")] "theme") (jget (loadConfig none) "theme")
      else oor (jget [("theme", vStr "dark")] "theme") (jget DEFAULT_CONFIG "theme")) ∧
    (jget (loadConfig (some [("theme", vStr "dark")])) "maxItems" =
      if false = true then
        oor (jget [("theme", vStr "dark")] "maxItems") (jget (loadConfig none) "maxItems")
      else oor (jget [("theme", vStr "dark")] "maxItems") (jget DEFAULT_CONFIG "maxItems")) :=
  ⟨C2_import_merge_replace [("theme", vStr "dark")] (by decide) false true true none
      [("theme", vStr "dark")] (by decide) "theme",
   C2_import_merge_replace [("theme", vStr "dark")] (by decide) false true true none
      [("theme", vStr "dark")] (by decide) "maxItems"⟩

/-- C3: an import whose candidate has validation errors, run without
`--force`, saves nothing (the persisted document is unchanged), returns
the collected error list, and that list contains the error of every
failing candidate entry (validation does not stop at the first failure). -/
theorem C3_import_abort_atomic (M : Config) (merge confirmed : Bool)
    (stored : Option Config) (h : importValidationErrors M ≠ []) :
    (importAction M merge false confirmed stored).saved = none ∧
    storedAfter stored (importAction M merge false confirmed stored).saved = stored ∧
    (importAction M merge false confirmed stored).validationErrors =
      importValidationErrors M ∧
    ∀ kv ∈ M, ∀ m, validateConfigValue kv.1 kv.2 = .err m →
      (kv.1 ++ ": " ++ m) ∈ (importAction M merge false confirmed stored).validationErrors := by
  have hempty : (importValidationErrors M).isEmpty = false := by
    cases hL : importValidationErrors M with
    | nil => exact absurd hL h
    | cons a l => rfl
  have hact : importAction M merge false confirmed stored =
      { validationErrors := importValidationErrors M, saved := none, exitCode := 0 } := by
    simp [importAction, hempty]
  refine ⟨by rw [hact], by rw [hact]; rfl, by rw [hact], ?_⟩
  intro kv hmem m hv
  rw [hact]
  exact mem_importValidationErrors M kv m hmem hv

/-- Witness for C3 at the candidate `{theme: "dark", colorOutput: "notabool"}`
(scenario 5 of the spec): the import aborts, the store is untouched, and
the `colorOutput` error is collected. -/
theorem C3_import_abort_atomic_witness :
    (importAction [("theme", vStr "dark"), ("colorOutput", vStr "notabool")]
        false false true none).saved = none ∧
    storedAfter none (importAction [("theme", vStr "dark"), ("colorOutput", vStr "notabool")]
        false false true none).saved = none ∧
    ("colorOutput" ++ ": " ++ "Must be true or false") ∈
      (importAction [("theme", vStr "dark"), ("colorOutput", vStr "notabool")]
        false false true none).validationErrors :=
  ⟨(C3_import_abort_atomic _ false true none (by decide)).1,
   (C3_import_abort_atomic _ false true none (by decide)).2.1,
   (C3_import_abort_atomic _ false true none (by decide)).2.2.2
      ("colorOutput", vStr "notabool") (by decide) _ (by decide)⟩

/-- C4: the `export` action of `config.ts` has no modified-only mode: it
always serializes the full loaded document.  Exporting a persisted
document equal to all defaults therefore produces every schema key (ten
of them), not the empty key set that a modified-only export would give;
`COMMAND_REFERENCE.md` documents a `--modified` switch the code never
implements. -/
theorem C4_export_has_no_modified_mode :
    (∀ stored, exportedKeys stored = (loadConfig stored).map Prod.fst) ∧
    exportAction (some DEFAULT_CONFIG) = DEFAULT_CONFIG ∧
    exportedKeys (some DEFAULT_CONFIG) = schemaKeys ∧
    schemaKeys.length = 10 := by
  exact ⟨fun stored => rfl, by decide, by decide, by decide⟩

/-- A valid document (every value satisfies its key's validator) in which
`apiUrl` holds the string `"true"`: a non-empty string, hence accepted by
the `apiUrl` validator, but changed by the conversion step of
`validateConfigValue` into the boolean `true`. -/
def badApiDoc : Config :=
  [("theme", vStr "default"),
   ("colorOutput", vBool true),
   ("dateFormat", vStr "locale"),
   ("defaultPriority", vStr "medium"),
   ("autoSave", vBool true),
   ("maxItems", vInt 100),
   ("apiUrl", vStr "true"),
   ("timeout", vInt 5000),
   ("language", vStr "en"),
   ("debug", vBool false)]

/-- C1 counterexample: `badApiDoc` is a valid document, yet importing its
export in replace mode with validation enabled collects a validation
error (the exported `apiUrl: "true"` is coerced to a boolean, which the
`apiUrl` validator rejects) and aborts without yielding any document. -/
theorem C1_roundtrip_counterexample :
    isValidDoc badApiDoc ∧
    (importAction (exportAction (some badApiDoc)) false false true
        (some badApiDoc)).validationErrors =
      ["apiUrl: Must be a valid URL string"] ∧
    (importAction (exportAction (some badApiDoc)) false false true
        (some badApiDoc)).saved = none := by
  exact ⟨by decide, by decide, by decide⟩

/-- C1 (amended): for every valid document none of whose values is
changed by the conversion step of `validateConfigValue`, exporting the
document and importing the export in replace mode with validation enabled
(and the prompt confirmed) persists the exported object, and the
resulting document equals the original at every key. -/
theorem C1_export_import_roundtrip (D : Config)
    (hD : isValidDoc D) (hc : coercionFree D) :
    (importAction (exportAction (some D)) false false true (some D)).saved =
      some (exportAction (some D)) ∧
    ∀ k, jget (loadConfig (some (exportAction (some D)))) k = jget D k := by
  obtain ⟨hnodup, hfull, hentries⟩ := hD
  have hok : ∀ kv ∈ exportAction (some D), ∃ v, validateConfigValue kv.1 kv.2 = .ok v := by
    intro kv hkv
    rcases mem_jmerge _ _ _ hkv with hmem | hmem
    · exact ⟨kv.2, default_entries_validate kv hmem⟩
    · exact ⟨kv.2, validate_ok_of_holds _ _ (hentries kv hmem).2 (hc kv hmem)⟩
  have herr : importValidationErrors (exportAction (some D)) = [] :=
    importValidationErrors_eq_nil _ hok
  constructor
  · simp [importAction, herr]
  · intro k
    have hnodupE : ((exportAction (some D)).map Prod.fst).Nodup :=
      nodup_keys_jmerge _ _ nodup_keys_default
    show jget (jmerge DEFAULT_CONFIG (exportAction (some D))) k = jget D k
    rw [jget_jmerge _ _ _ hnodupE]
    show oor (jget (jmerge DEFAULT_CONFIG D) k) (jget DEFAULT_CONFIG k) = jget D k
    rw [jget_jmerge _ _ _ hnodup]
    cases hd : jget D k with
    | some v => simp [oor]
    | none =>
      cases hdef : jget DEFAULT_CONFIG k with
      | none => simp [oor, hdef]
      | some d =>
        have hk : k ∈ schemaKeys := by
          simpa [schemaKeys] using
            List.mem_map_of_mem Prod.fst (mem_of_jget_eq_some _ _ _ hdef)
        have := hfull k hk
        rw [hd] at this
        simp at this

/-- Witness for the amended C1 at the default document. -/
theorem C1_export_import_roundtrip_witness :
    (importAction (exportAction (some DEFAULT_CONFIG)) false false true
        (some DEFAULT_CONFIG)).saved = some (exportAction (some DEFAULT_CONFIG)) ∧
    jget (loadConfig (some (exportAction (some DEFAULT_CONFIG)))) "theme" =
      jget DEFAULT_CONFIG "theme" :=
  ⟨(C1_export_import_roundtrip DEFAULT_CONFIG (by decide) (by decide)).1,
   (C1_export_import_roundtrip DEFAULT_CONFIG (by decide) (by decide)).2 "theme"⟩

/-- C6: `set` without `--force` validates first and rejects invalid
values, reporting the key-specific suggestion and neither mutating nor
persisting anything; in particular `set theme neon` fails with the theme
suggestion message. -/
theorem C6_set_rejects_invalid :
    (validateConfigValue "theme" (vStr "neon") =
      .err "Must be one of: default, dark, light, rainbow") ∧
    (∀ stored, setAction "theme" "neon" false stored =
      { errorMsg := some "Must be one of: default, dark, light, rainbow",
        saved := none, exitCode := 0 }) ∧
    (∀ key value stored m, validateConfigValue key (vStr value) = .err m →
      setAction key value false stored =
        { errorMsg := some m, saved := none, exitCode := 0 } ∧
      storedAfter stored (setAction key value false stored).saved = stored) := by
  refine ⟨by decide, ?_, ?_⟩
  · intro stored
    simp only [setAction]
    rw [show validateConfigValue "theme" (vStr "neon") =
      .err "Must be one of: default, dark, light, rainbow" from by decide]
    simp
  · intro key value stored m hv
    have hact : setAction key value false stored =
        { errorMsg := some m, saved := none, exitCode := 0 } := by
      simp only [setAction]
      rw [hv]
      simp
    exact ⟨hact, by simp [hact, storedAfter]⟩

/-- Witness for C6 at `set dateFormat tomorrow` over an empty store. -/
theorem C6_set_rejects_invalid_witness :
    setAction "dateFormat" "tomorrow" false none =
      { errorMsg := some "Must be one of: locale, iso, us, eu",
        saved := none, exitCode := 0 } ∧
    storedAfter none (setAction "dateFormat" "tomorrow" false none).saved = none :=
  C6_set_rejects_invalid.2.2 "dateFormat" "tomorrow" none _ (by decide)

/-- C7: the conversion step runs before validation: string `"true"` and
`"false"` become booleans, a string passing both numeric tests becomes
`parseInt` of the string; `set maxItems 150` converts `"150"` to the
integer 150, which the 1–1000 range accepts, and persists it. -/
theorem C7_coercion_before_validation :
    (coerce (vStr "true") = vBool true) ∧
    (coerce (vStr "false") = vBool false) ∧
    (∀ s n, s ≠ "true" → s ≠ "false" → jsNumberIsNaN s = false →
      jsParseFloatIsNaN s = false → jsParseInt s = some n →
      coerce (vStr s) = vInt n) ∧
    (validateConfigValue "maxItems" (vStr "150") = .ok (vInt 150)) ∧
    ((1 : Int) ≤ 150 ∧ (150 : Int) ≤ 1000) ∧
    (∀ stored, setAction "maxItems" "150" false stored =
      { errorMsg := none,
        saved := some (jinsert (loadConfig stored) "maxItems" (vInt 150)),
        exitCode := 0 }) := by
  refine ⟨by decide, by decide, ?_, by decide, by decide, ?_⟩
  · intro s n h1 h2 h3 h4 h5
    simp [coerce, h1, h2, h3, h4, h5]
  · intro stored
    simp only [setAction]
    rw [show validateConfigValue "maxItems" (vStr "150") = .ok (vInt 150) from by decide]
    simp

/-- Witness for C7: the numeric conversion at the concrete string `"42"`,
and the `set maxItems 150` outcome over an empty store. -/
theorem C7_coercion_before_validation_witness :
    coerce (vStr "42") = vInt 42 ∧
    setAction "maxItems" "150" false none =
      { errorMsg := none,
        saved := some (jinsert (loadConfig none) "maxItems" (vInt 150)),
        exitCode := 0 } :=
  ⟨C7_coercion_before_validation.2.2.1 "42" 42 (by decide) (by decide) (by decide)
      (by decide) (by decide),
   C7_coercion_before_validation.2.2.2.2.2 none⟩

/-- C8 counterexample: the error paths of the config commands terminate
with exit status 0, the same status as a successful invocation — on
`set theme neon` (validation error), `get`/`reset` with an unknown key,
an error is reported but the status equals the status of the successful
`set theme dark`. -/
theorem C8_error_exit_counterexample :
    (setAction "theme" "neon" false none).errorMsg.isSome = true ∧
    (setAction "theme" "neon" false none).exitCode = 0 ∧
    (setAction "theme" "dark" false none).errorMsg = none ∧
    (setAction "theme" "dark" false none).exitCode = 0 ∧
    (getAction "nosuchkey" none).errorMsg.isSome = true ∧
    (getAction "nosuchkey" none).exitCode = 0 ∧
    (resetKeyAction "nosuchkey" false true none).errorMsg.isSome = true ∧
    (resetKeyAction "nosuchkey" false true none).exitCode = 0 := by
  decide

/-- C8 (amended): a validation error or a not-found error makes the
command report an error message and return without saving anything, but
the process terminates with status 0 — the same exit status as a
successful invocation, since `config.ts` never sets an exit code. -/
theorem C8_errors_reported_status_zero :
    (∀ key value stored m, validateConfigValue key (vStr value) = .err m →
      (setAction key value false stored).errorMsg = some m ∧
      (setAction key value false stored).saved = none ∧
      (setAction key value false stored).exitCode = 0) ∧
    (∀ key stored, keyOccurs (loadConfig stored) key = false →
      (getAction key stored).errorMsg =
        some ("Configuration key \"" ++ key ++ "\" not found!") ∧
      (getAction key stored).exitCode = 0) ∧
    (∀ key force confirmed stored, keyOccurs DEFAULT_CONFIG key = false →
      (resetKeyAction key force confirmed stored).errorMsg =
        some ("Unknown configuration key: " ++ key) ∧
      (resetKeyAction key force confirmed stored).saved = none ∧
      (resetKeyAction key force confirmed stored).exitCode = 0) := by
  refine ⟨?_, ?_, ?_⟩
  · intro key value stored m hv
    simp only [setAction]
    rw [hv]
    exact ⟨rfl, rfl, rfl⟩
  · intro key stored h
    simp only [getAction]
    rw [h]
    exact ⟨rfl, rfl⟩
  · intro key force confirmed stored h
    simp only [resetKeyAction]
    rw [h]
    exact ⟨rfl, rfl, rfl⟩

/-- Witness for the amended C8, at `set theme neon`, `get nosuchkey` and
`reset --key nosuchkey` over an empty store. -/
theorem C8_errors_reported_status_zero_witness :
    ((setAction "theme" "neon" false none).errorMsg =
        some "Must be one of: default, dark, light, rainbow" ∧
      (setAction "theme" "neon" false none).saved = none ∧
      (setAction "theme" "neon" false none).exitCode = 0) ∧
    ((getAction "nosuchkey" none).errorMsg =
        some ("Configuration key \"" ++ "nosuchkey" ++ "\" not found!") ∧
      (getAction "nosuchkey" none).exitCode = 0) ∧
    ((resetKeyAction "nosuchkey" false true none).errorMsg =
        some ("Unknown configuration key: " ++ "nosuchkey") ∧
      (resetKeyAction "nosuchkey" false true none).saved = none ∧
      (resetKeyAction "nosuchkey" false true none).exitCode = 0) :=
  ⟨C8_errors_reported_status_zero.1 "theme" "neon" none _ (by decide),
   C8_errors_reported_status_zero.2.1 "nosuchkey" none (by decide),
   C8_errors_reported_status_zero.2.2 "nosuchkey" false true none (by decide)⟩

/-- C9: the `--force` path of `set` skips validation and conversion: for
every key (schema or not) and every raw string value (valid or not) it
assigns the raw string and persists, so a persisted document whose
`theme` fails its validator, and one containing the non-schema key
`customKey`, are both reachable. -/
theorem C9_force_set_breaks_invariant :
    (∀ key value stored, setAction key value true stored =
      { errorMsg := none,
        saved := some (jinsert (loadConfig stored) key (vStr value)),
        exitCode := 0 }) ∧
    (jget ((setAction "theme" "neon" true none).saved.getD []) "theme" =
        some (vStr "neon") ∧
      validatorHolds "theme" (vStr "neon") = false) ∧
    (keyOccurs ((setAction "customKey" "whatever" true none).saved.getD [])
        "customKey" = true ∧
      "customKey" ∉ schemaKeys) := by
  exact ⟨fun key value stored => rfl, ⟨by decide, by decide⟩, ⟨by decide, by decide⟩⟩

/-- C10: the numeric branch converts only strings on which both
`Number` and `parseFloat` are non-NaN, to `parseInt` of the string
(truncating `"99.9"` to 99); the empty and whitespace-only strings have
NaN `parseFloat`, are left unconverted, and fail the `maxItems`
validator instead of becoming 0. -/
theorem C10_numeric_coercion_parseInt :
    (validateConfigValue "maxItems" (vStr "99.9") = .ok (vInt 99)) ∧
    (jsParseFloatIsNaN "" = true ∧ jsParseFloatIsNaN " " = true) ∧
    (coerce (vStr "") = vStr "" ∧ coerce (vStr " ") = vStr " ") ∧
    (validateConfigValue "maxItems" (vStr "") =
      .err "Must be a number between 1 and 1000") ∧
    (validateConfigValue "maxItems" (vStr " ") =
      .err "Must be a number between 1 and 1000") ∧
    (∀ s n, coerce (vStr s) = vInt n →
      jsNumberIsNaN s = false ∧ jsParseFloatIsNaN s = false ∧
      jsParseInt s = some n) := by
  refine ⟨by decide, by decide, by decide, by decide, by decide, ?_⟩
  intro s n h
  by_cases h1 : s = "true"
  · simp [coerce, h1] at h
  · by_cases h2 : s = "false"
    · simp [coerce, h1, h2] at h
    · by_cases h3 : (!jsNumberIsNaN s && !jsParseFloatIsNaN s) = true
      · rcases hp : jsParseInt s with _ | m
        · simp [coerce, h1, h2, h3, hp] at h
        · simp [coerce, h1, h2, h3, hp] at h
          subst h
          rw [Bool.and_eq_true, Bool.not_eq_true', Bool.not_eq_true'] at h3
          exact ⟨h3.1, h3.2, rfl⟩
      · simp [coerce, h1, h2, h3] at h

/-- Witness for C10's final clause at the string `"99.9"`. -/
theorem C10_numeric_coercion_parseInt_witness :
    jsNumberIsNaN "99.9" = false ∧ jsParseFloatIsNaN "99.9" = false ∧
    jsParseInt "99.9" = some 99 :=
  C10_numeric_coercion_parseInt.2.2.2.2.2 "99.9" 99 (by decide)
